import Mathlib

/-!
Verification development for the Coinbase L3 order-book synchronization core
(`pyalgotrade/coinbase/client.py`).

The client module (`client.py`) is embedded directly from the source.  The
order-book merge engine (`pyalgotrade.coinbase.obooksync.L3OrderBookSync`) is
imported by the client but its source is not part of the repository snapshot;
its operations are modelled from the specification (section 4.1) and are marked
as such in their doc comments.

Prices and sizes are modelled as exact rationals (`Rat`); the Python source
converts them with `float(...)` only at the read-only accessor boundary
(`OrderBookLevel.getPrice` / `getSize`), which we model as the identity on the
exact value.
-/

/-- A resting order inside a price level: unique id together with its
remaining size. -/
structure BookOrder where
  oid : Nat
  size : Rat
deriving DecidableEq

/-- Modelled from the spec: a `PriceLevel` is a price together with the
ordered collection of resting orders (insertion order = priority); its
aggregate size is the sum of constituent order sizes. -/
structure PriceLevel where
  price : Rat
  orders : List BookOrder
deriving DecidableEq

/-- Aggregate size of a price level: sum of the sizes of its resting orders. -/
def PriceLevel.size (l : PriceLevel) : Rat :=
  (l.orders.map BookOrder.size).sum

/-- Modelled from the spec: the authoritative in-memory book held by the merge
engine — bids (kept best-first, i.e. descending by price), asks (kept
best-first, i.e. ascending by price), and the sequence number of the last
applied event. -/
structure Book where
  bids : List PriceLevel
  asks : List PriceLevel
  sequence : Nat
deriving DecidableEq

/-- Modelled from the spec: a point-in-time REST snapshot of the book, with
the sequence number it corresponds to. -/
structure Snapshot where
  bids : List PriceLevel
  asks : List PriceLevel
  sequence : Nat
deriving DecidableEq

/-- Modelled from the spec: `loadSnapshot` replaces the entire book content
and sets `sequence = snapshot.sequence`, fully discarding prior state. -/
def Book.loadSnapshot (s : Snapshot) : Book :=
  ⟨s.bids, s.asks, s.sequence⟩

/-- Side of an order. -/
inductive Side where
  | bid
  | ask
deriving DecidableEq

/-- A decoded order message from the stream: order id, side, price, size and
the event's sequence number.  (The concrete wire messages differ per event
kind; these fields cover the ones each merge-engine operation consumes.) -/
structure OrderMsg where
  orderId : Nat
  side : Side
  price : Rat
  size : Rat
  sequence : Nat
deriving DecidableEq

/-- Modelled from the spec: insert an order into a side's level list, keeping
the best-first order given by `before` on prices; the order goes at the tail
of its price level's queue, and the level is created if absent. -/
def insertIntoLevels (before : Rat → Rat → Prop) [DecidableRel before]
    (p : Rat) (o : BookOrder) : List PriceLevel → List PriceLevel
  | [] => [⟨p, [o]⟩]
  | l :: ls =>
    if l.price = p then ⟨l.price, l.orders ++ [o]⟩ :: ls
    else if before p l.price then ⟨p, [o]⟩ :: l :: ls
    else l :: insertIntoLevels before p o ls

/-- Modelled from the spec: remove the order with id `oid` from a side's level
list, deleting its level when it becomes empty.  Returns the new list and
whether anything was removed. -/
def removeOrderFromLevels (oid : Nat) : List PriceLevel → List PriceLevel × Bool
  | [] => ([], false)
  | l :: ls =>
    if l.orders.any (fun o => o.oid = oid) then
      let os := l.orders.filter (fun o => o.oid ≠ oid)
      (if os.isEmpty then ls else ⟨l.price, os⟩ :: ls, true)
    else
      let r := removeOrderFromLevels oid ls
      (l :: r.1, r.2)

/-- Modelled from the spec: decrement the maker order's remaining size by the
trade size, removing the order when its size reaches zero.  Returns the new
order queue and whether the maker order was found. -/
def matchOrderInQueue (oid : Nat) (tradeSize : Rat) :
    List BookOrder → List BookOrder × Bool
  | [] => ([], false)
  | o :: os =>
    if o.oid = oid then
      (if o.size - tradeSize ≤ 0 then os else ⟨o.oid, o.size - tradeSize⟩ :: os, true)
    else
      let r := matchOrderInQueue oid tradeSize os
      (o :: r.1, r.2)

/-- Modelled from the spec: apply a match to a side's level list — decrement
the maker order, removing the order and then the level if it becomes empty.
Returns the new list and whether the maker order was found. -/
def matchOrderInLevels (oid : Nat) (tradeSize : Rat) :
    List PriceLevel → List PriceLevel × Bool
  | [] => ([], false)
  | l :: ls =>
    let q := matchOrderInQueue oid tradeSize l.orders
    if q.2 then
      (if q.1.isEmpty then ls else ⟨l.price, q.1⟩ :: ls, true)
    else
      let r := matchOrderInLevels oid tradeSize ls
      (l :: r.1, r.2)

/-- Modelled from the spec: update an order's remaining size in place (no
level relocation, since price is immutable per order).  Returns the new queue
and whether the order was found. -/
def changeOrderInQueue (oid : Nat) (newSize : Rat) :
    List BookOrder → List BookOrder × Bool
  | [] => ([], false)
  | o :: os =>
    if o.oid = oid then (⟨o.oid, newSize⟩ :: os, true)
    else
      let r := changeOrderInQueue oid newSize os
      (o :: r.1, r.2)

/-- Modelled from the spec: apply an in-place size change to a side's level
list.  Returns the new list and whether the order was found. -/
def changeOrderInLevels (oid : Nat) (newSize : Rat) :
    List PriceLevel → List PriceLevel × Bool
  | [] => ([], false)
  | l :: ls =>
    let q := changeOrderInQueue oid newSize l.orders
    if q.2 then (⟨l.price, q.1⟩ :: ls, true)
    else
      let r := changeOrderInLevels oid newSize ls
      (l :: r.1, r.2)

/-- Whether an order with id `oid` is present somewhere in the book. -/
def Book.hasOrder (b : Book) (oid : Nat) : Bool :=
  (b.bids ++ b.asks).any (fun l => l.orders.any (fun o => o.oid = oid))

/-- Modelled from the spec: `applyReceived` is informational only — it does
not mutate price levels, so the book is unchanged and no book change is
reported. -/
def L3OrderBookSync.onOrderReceived (b : Book) (_ : OrderMsg) : Book × Bool :=
  (b, false)

/-- Modelled from the spec: `applyOpen` inserts the order at the tail of its
price level's queue, creating the level if absent; the book always changes. -/
def L3OrderBookSync.onOrderOpen (b : Book) (m : OrderMsg) : Book × Bool :=
  match m.side with
  | Side.bid =>
    ({ b with bids := insertIntoLevels (· > ·) m.price ⟨m.orderId, m.size⟩ b.bids,
              sequence := m.sequence }, true)
  | Side.ask =>
    ({ b with asks := insertIntoLevels (· < ·) m.price ⟨m.orderId, m.size⟩ b.asks,
              sequence := m.sequence }, true)

/-- Modelled from the spec: `applyDone` removes the order from its level,
deleting the level when empty; unknown order ids are silently tolerated and
report no change. -/
def L3OrderBookSync.onOrderDone (b : Book) (m : OrderMsg) : Book × Bool :=
  let rb := removeOrderFromLevels m.orderId b.bids
  if rb.2 then ({ b with bids := rb.1, sequence := m.sequence }, true)
  else
    let ra := removeOrderFromLevels m.orderId b.asks
    if ra.2 then ({ b with asks := ra.1, sequence := m.sequence }, true)
    else (b, false)

/-- Modelled from the spec: `applyMatch` decrements the maker order's
remaining size, removing the order/level when it reaches zero; unknown maker
ids report no change. -/
def L3OrderBookSync.onOrderMatch (b : Book) (m : OrderMsg) : Book × Bool :=
  let rb := matchOrderInLevels m.orderId m.size b.bids
  if rb.2 then ({ b with bids := rb.1, sequence := m.sequence }, true)
  else
    let ra := matchOrderInLevels m.orderId m.size b.asks
    if ra.2 then ({ b with asks := ra.1, sequence := m.sequence }, true)
    else (b, false)

/-- Modelled from the spec: `applyChange` updates the order's remaining size
in place; unknown order ids report no change. -/
def L3OrderBookSync.onOrderChange (b : Book) (m : OrderMsg) : Book × Bool :=
  let rb := changeOrderInLevels m.orderId m.size b.bids
  if rb.2 then ({ b with bids := rb.1, sequence := m.sequence }, true)
  else
    let ra := changeOrderInLevels m.orderId m.size b.asks
    if ra.2 then ({ b with asks := ra.1, sequence := m.sequence }, true)
    else (b, false)

/-- Sequence accessor of the merge engine. -/
def L3OrderBookSync.getSequence (b : Book) : Nat := b.sequence

/-- Modelled from the spec: `getValues(maxValues)` on a side's price levels
returns the levels best-first, at most `maxValues` of them.  (The levels are
stored best-first, so this is a take.) -/
def PriceLevels.getValues (ls : List PriceLevel) (maxValues : Nat) : List PriceLevel :=
  ls.take maxValues

/-- `OrderBookLevel` from `client.py`: a price level collapsed to a
`(price, aggregateSize)` pair. -/
structure OrderBookLevel where
  price : Rat
  size : Rat
deriving DecidableEq

/-- `OrderBookLevel.getPrice` from `client.py` (the source applies `float`;
we keep the exact value). -/
def OrderBookLevel.getPrice (l : OrderBookLevel) : Rat := l.price

/-- `OrderBookLevel.getSize` from `client.py` (the source applies `float`;
we keep the exact value). -/
def OrderBookLevel.getSize (l : OrderBookLevel) : Rat := l.size

/-- `pricelevels_to_obooklevels` from `client.py`: map each of at most
`maxValues` best-first price levels to an `OrderBookLevel`. -/
def pricelevels_to_obooklevels (priceLevels : List PriceLevel) (maxValues : Nat) :
    List OrderBookLevel :=
  (PriceLevels.getValues priceLevels maxValues).map
    (fun level => OrderBookLevel.mk level.price level.size)

/-- `L3OrderBook.getSequence` from `client.py`. -/
def L3OrderBook.getSequence (b : Book) : Nat :=
  L3OrderBookSync.getSequence b

/-- `L3OrderBook.getBids` from `client.py`: the bids, bounded to `maxValues`
levels. -/
def L3OrderBook.getBids (b : Book) (maxValues : Nat) : List OrderBookLevel :=
  pricelevels_to_obooklevels b.bids maxValues

/-- `L3OrderBook.getAsks` from `client.py`: the asks, bounded to `maxValues`
levels. -/
def L3OrderBook.getAsks (b : Book) (maxValues : Nat) : List OrderBookLevel :=
  pricelevels_to_obooklevels b.asks maxValues

/-- `L3OrderBook.getBids` with its default argument (`maxValues=20`) from
`client.py`. -/
def L3OrderBook.getBidsDefault (b : Book) : List OrderBookLevel :=
  L3OrderBook.getBids b 20

/-- `L3OrderBook.getAsks` with its default argument (`maxValues=20`) from
`client.py`. -/
def L3OrderBook.getAsksDefault (b : Book) : List OrderBookLevel :=
  L3OrderBook.getAsks b 20

/-- The event kinds of `WebSocketClient.Event` in `client.py` (constants 1–9). -/
inductive EventKind where
  | ERROR
  | CONNECTED
  | DISCONNECTED
  | ORDER_MATCH
  | ORDER_RECEIVED
  | ORDER_OPEN
  | ORDER_DONE
  | ORDER_CHANGE
  | SEQ_NR_MISMATCH
deriving DecidableEq

/-- An event on the worker's queue, as pushed by `WebSocketClient` in
`client.py`: each push site pairs one event kind with its payload shape
(`None` for connected/disconnected, the decoded message for errors and order
events, the current sequence number for a sequence mismatch). -/
inductive QEvent where
  | error (m : OrderMsg)
  | connected
  | disconnected
  | orderMatch (m : OrderMsg)
  | orderReceived (m : OrderMsg)
  | orderOpen (m : OrderMsg)
  | orderDone (m : OrderMsg)
  | orderChange (m : OrderMsg)
  | seqNrMismatch (n : Nat)
deriving DecidableEq

/-- The event kind of a queued event. -/
def QEvent.kind : QEvent → EventKind
  | .error _ => .ERROR
  | .connected => .CONNECTED
  | .disconnected => .DISCONNECTED
  | .orderMatch _ => .ORDER_MATCH
  | .orderReceived _ => .ORDER_RECEIVED
  | .orderOpen _ => .ORDER_OPEN
  | .orderDone _ => .ORDER_DONE
  | .orderChange _ => .ORDER_CHANGE
  | .seqNrMismatch _ => .SEQ_NR_MISMATCH

/-- `Client.ORDER_BOOK_EVENT_DISPATCH` from `client.py`: the fixed dispatch
table mapping the five routed order event kinds to the merge engine's
methods; every other kind has no entry. -/
def Client.ORDER_BOOK_EVENT_DISPATCH :
    EventKind → Option (Book → OrderMsg → Book × Bool)
  | .ORDER_MATCH => some L3OrderBookSync.onOrderMatch
  | .ORDER_RECEIVED => some L3OrderBookSync.onOrderReceived
  | .ORDER_OPEN => some L3OrderBookSync.onOrderOpen
  | .ORDER_DONE => some L3OrderBookSync.onOrderDone
  | .ORDER_CHANGE => some L3OrderBookSync.onOrderChange
  | _ => none

/-- Externally visible effects of the client, recorded as a trace: worker
thread management, REST snapshot handling, outward notifications and logging.
`emitOrderEvent` is `self.__orderEvents.emit(eventData)` and
`emitL3OrderBookEvent` is `self.__l3OrderBookEvents.emit(...)`. -/
inductive ClientAction where
  | spawnWorker
  | joinWorker
  | fetchSnapshot
  | loadBook
  | emitOrderEvent (m : OrderMsg)
  | emitL3OrderBookEvent
  | logInvalidEvent
deriving DecidableEq

/-- The state of a `Client` from `client.py`: the stopped flag, whether a
worker thread object exists (`__wsClientThread is not None`) and whether it is
connected, whether the worker was told to stop, the merge engine's book
(`__l3OBookSync`; per the spec the book starts empty), the event channel
contents, and an oracle listing the outcome of each future connection attempt
(whether the spawned worker thread ends up connected rather than dead). -/
structure ClientState where
  stopped : Bool
  hasWorker : Bool
  connected : Bool
  workerStopRequested : Bool
  book : Book
  queue : List QEvent
  attemptOracle : List Bool
deriving DecidableEq

/-- The environment a dispatch call runs against: the snapshot the REST
endpoint would currently return. -/
structure Env where
  snapshot : Snapshot
deriving DecidableEq

/-- The state of a fresh `Client.__init__`: not stopped, no worker thread
yet, empty book, empty channel. -/
def Client.initialState (oracle : List Bool) : ClientState :=
  { stopped := false
    hasWorker := false
    connected := false
    workerStopRequested := false
    book := ⟨[], [], 0⟩
    queue := []
    attemptOracle := oracle }

/-- The loop body of `Client.__connectWS` from `client.py`, recursing over the
connection-attempt oracle: each iteration spawns a worker thread and waits
until it is either connected or dead; the loop exits when the attempt
connected or when `retry` is false.  An exhausted oracle models a
retry-forever loop in which no attempt ever connects. -/
def Client.connectWSGo (retry : Bool) : List Bool → ClientState → ClientState × List ClientAction
  | [], st => (st, [])
  | a :: rest, st =>
    let st1 := { st with hasWorker := true, connected := a, attemptOracle := rest }
    if a || !retry then (st1, [ClientAction.spawnWorker])
    else
      let r := Client.connectWSGo retry rest st1
      (r.1, ClientAction.spawnWorker :: r.2)

/-- `Client.__connectWS` from `client.py`. -/
def Client.connectWS (retry : Bool) (st : ClientState) : ClientState × List ClientAction :=
  Client.connectWSGo retry st.attemptOracle st

/-- `Client.refreshOrderBook` from `client.py`: fetch a level-3 REST snapshot
and replace the merge engine with a fresh one built from it
(`self.__l3OBookSync = obooksync.L3OrderBookSync(obook)`). -/
def Client.refreshOrderBook (env : Env) (st : ClientState) : ClientState × List ClientAction :=
  ({ st with book := Book.loadSnapshot env.snapshot },
   [ClientAction.fetchSnapshot, ClientAction.loadBook])

/-- `Client.__onConnected` from `client.py`. -/
def Client.onConnected (env : Env) (st : ClientState) : ClientState × List ClientAction :=
  Client.refreshOrderBook env st

/-- `Client.__onSeqNrMismatch` from `client.py`. -/
def Client.onSeqNrMismatch (env : Env) (st : ClientState) : ClientState × List ClientAction :=
  Client.refreshOrderBook env st

/-- `Client.__onDisconnected` from `client.py`: join the worker thread, then
reconnect in retry mode unless a stop was requested. -/
def Client.onDisconnected (st : ClientState) : ClientState × List ClientAction :=
  if st.stopped then (st, [ClientAction.joinWorker])
  else
    let r := Client.connectWS true st
    (r.1, ClientAction.joinWorker :: r.2)

/-- Failure modes of a dispatch call.  `assertionFailed` is the
`assert method is not None` in `Client.__onOrderEvent`. -/
inductive DispatchErr where
  | assertionFailed
deriving DecidableEq

/-- `Client.__onOrderEvent` from `client.py`: emit the raw order event, look
the event kind up in the dispatch table (asserting it is present), apply the
merge-engine method, and emit a book-updated event when the method reports a
change. -/
def Client.onOrderEvent (eventType : EventKind) (eventData : OrderMsg)
    (st : ClientState) : Except DispatchErr (ClientState × List ClientAction) :=
  match Client.ORDER_BOOK_EVENT_DISPATCH eventType with
  | none => Except.error DispatchErr.assertionFailed
  | some method =>
    let r := method st.book eventData
    Except.ok ({ st with book := r.1 },
      ClientAction.emitOrderEvent eventData ::
        if r.2 then [ClientAction.emitL3OrderBookEvent] else [])

/-- `Client.dispatch` from `client.py`: pop at most one event from the
channel (an empty channel raises `Queue.Empty` after the 10ms timeout, caught
and turned into `ret = False`), route it by kind, and return whether it was
handled.  The result also carries the trace of externally visible actions the
call performed. -/
def Client.dispatch (env : Env) (st : ClientState) :
    Except DispatchErr (ClientState × Bool × List ClientAction) :=
  match st.queue with
  | [] => Except.ok (st, false, [])
  | e :: rest =>
    let st1 := { st with queue := rest }
    match e with
    | .connected =>
      let r := Client.onConnected env st1
      Except.ok (r.1, true, r.2)
    | .disconnected =>
      let r := Client.onDisconnected st1
      Except.ok (r.1, true, r.2)
    | .orderMatch m =>
      (Client.onOrderEvent EventKind.ORDER_MATCH m st1).map (fun r => (r.1, true, r.2))
    | .orderReceived m =>
      (Client.onOrderEvent EventKind.ORDER_RECEIVED m st1).map (fun r => (r.1, true, r.2))
    | .orderOpen m =>
      (Client.onOrderEvent EventKind.ORDER_OPEN m st1).map (fun r => (r.1, true, r.2))
    | .orderDone m =>
      (Client.onOrderEvent EventKind.ORDER_DONE m st1).map (fun r => (r.1, true, r.2))
    | .orderChange m =>
      (Client.onOrderEvent EventKind.ORDER_CHANGE m st1).map (fun r => (r.1, true, r.2))
    | .seqNrMismatch _ =>
      let r := Client.onSeqNrMismatch env st1
      Except.ok (r.1, true, r.2)
    | .error _ =>
      Except.ok (st1, false, [ClientAction.logInvalidEvent])

/-- `Client.start` from `client.py`: one connection attempt without retry,
then raise iff the worker is not connected. -/
def Client.start (st : ClientState) : Except String (ClientState × List ClientAction) :=
  let r := Client.connectWS false st
  if r.1.connected then Except.ok r
  else Except.error "Failed to connect websocket client"

/-- `Client.stop` from `client.py`: when a worker thread exists, set the
stopped flag and tell the worker to stop; otherwise do nothing. -/
def Client.stop (st : ClientState) : ClientState :=
  if st.hasWorker then { st with stopped := true, workerStopRequested := true }
  else st

/-- `Client.eof` from `client.py`. -/
def Client.eof (st : ClientState) : Bool := st.stopped

/-- A small concrete book used to exercise the definitions: two bid levels
(prices 10 and 9) and two ask levels (prices 11 and 12), holding the orders
with ids 1–4. -/
def sampleBook : Book :=
  ⟨[⟨10, [⟨1, 1⟩]⟩, ⟨9, [⟨2, 2⟩]⟩], [⟨11, [⟨3, 1⟩]⟩, ⟨12, [⟨4, 1⟩]⟩], 100⟩

/-- A concrete order message whose id (5) is not present in `sampleBook`. -/
def sampleUnknownMsg : OrderMsg := ⟨5, Side.bid, 10, 1, 101⟩

/-- A concrete order message opening order id 6 on the bid side. -/
def sampleOpenMsg : OrderMsg := ⟨6, Side.bid, 10, 3, 102⟩

/-- A concrete environment: the snapshot the REST endpoint would return. -/
def sampleEnv : Env :=
  ⟨⟨[⟨8, [⟨7, 1⟩]⟩], [⟨13, [⟨8, 2⟩]⟩], 200⟩⟩

/-- A concrete connected client state with an empty channel. -/
def sampleState : ClientState :=
  { stopped := false
    hasWorker := true
    connected := true
    workerStopRequested := false
    book := sampleBook
    queue := []
    attemptOracle := [] }

/-- `sampleState` with an `ERROR` event queued. -/
def sampleErrorState : ClientState :=
  { sampleState with queue := [QEvent.error sampleUnknownMsg] }

/-- `sampleState` with an order-open event queued. -/
def sampleOpenState : ClientState :=
  { sampleState with queue := [QEvent.orderOpen sampleOpenMsg] }

/-- `sampleState` with the stopped flag set. -/
def sampleStoppedState : ClientState :=
  { sampleState with stopped := true }

/-- `sampleState` after a disconnection, with one failing and one succeeding
connection attempt ahead of it. -/
def sampleRetryState : ClientState :=
  { sampleState with connected := false, attemptOracle := [false, true] }

/-- Membership test for an order id on one side's level list. -/
def levelsHaveOrder (oid : Nat) (ls : List PriceLevel) : Bool :=
  ls.any (fun l => l.orders.any (fun o => o.oid = oid))

lemma hasOrder_split (b : Book) (oid : Nat) (h : b.hasOrder oid = false) :
    levelsHaveOrder oid b.bids = false ∧ levelsHaveOrder oid b.asks = false := by
  simp [Book.hasOrder, List.any_append, Bool.or_eq_false_iff] at h
  constructor <;> simp [levelsHaveOrder] <;> tauto

lemma removeOrderFromLevels_not_found (oid : Nat) :
    ∀ ls : List PriceLevel, levelsHaveOrder oid ls = false →
      removeOrderFromLevels oid ls = (ls, false)
  | [], _ => rfl
  | l :: ls, h => by
    simp only [levelsHaveOrder, List.any_cons, Bool.or_eq_false_iff] at h
    have ih := removeOrderFromLevels_not_found oid ls (by simp [levelsHaveOrder, h.2])
    simp [removeOrderFromLevels, h.1, ih]

lemma matchOrderInQueue_not_found (oid : Nat) (t : Rat) :
    ∀ os : List BookOrder, os.any (fun o => o.oid = oid) = false →
      matchOrderInQueue oid t os = (os, false)
  | [], _ => rfl
  | o :: os, h => by
    simp only [List.any_cons, Bool.or_eq_false_iff] at h
    have ih := matchOrderInQueue_not_found oid t os h.2
    have ho : ¬ o.oid = oid := by simpa using h.1
    simp [matchOrderInQueue, ho, ih]

lemma matchOrderInLevels_not_found (oid : Nat) (t : Rat) :
    ∀ ls : List PriceLevel, levelsHaveOrder oid ls = false →
      matchOrderInLevels oid t ls = (ls, false)
  | [], _ => rfl
  | l :: ls, h => by
    simp only [levelsHaveOrder, List.any_cons, Bool.or_eq_false_iff] at h
    have ih := matchOrderInLevels_not_found oid t ls (by simp [levelsHaveOrder, h.2])
    have hq := matchOrderInQueue_not_found oid t l.orders h.1
    simp [matchOrderInLevels, hq, ih]

lemma changeOrderInQueue_not_found (oid : Nat) (ns : Rat) :
    ∀ os : List BookOrder, os.any (fun o => o.oid = oid) = false →
      changeOrderInQueue oid ns os = (os, false)
  | [], _ => rfl
  | o :: os, h => by
    simp only [List.any_cons, Bool.or_eq_false_iff] at h
    have ih := changeOrderInQueue_not_found oid ns os h.2
    have ho : ¬ o.oid = oid := by simpa using h.1
    simp [changeOrderInQueue, ho, ih]

lemma changeOrderInLevels_not_found (oid : Nat) (ns : Rat) :
    ∀ ls : List PriceLevel, levelsHaveOrder oid ls = false →
      changeOrderInLevels oid ns ls = (ls, false)
  | [], _ => rfl
  | l :: ls, h => by
    simp only [levelsHaveOrder, List.any_cons, Bool.or_eq_false_iff] at h
    have ih := changeOrderInLevels_not_found oid ns ls (by simp [levelsHaveOrder, h.2])
    have hq := changeOrderInQueue_not_found oid ns l.orders h.1
    simp [changeOrderInLevels, hq, ih]

lemma connectWSGo_queue (retry : Bool) :
    ∀ (l : List Bool) (st : ClientState),
      (Client.connectWSGo retry l st).1.queue = st.queue
  | [], _ => rfl
  | a :: rest, st => by
    by_cases hc : (a || !retry) = true
    · simp [Client.connectWSGo, hc]
    · simp only [Bool.not_eq_true] at hc
      simp [Client.connectWSGo, hc, connectWSGo_queue retry rest]

lemma connectWSGo_retry_connected :
    ∀ (l : List Bool) (st : ClientState), l.contains true = true →
      (Client.connectWSGo true l st).1.connected = true
  | [], _, h => by simp at h
  | a :: rest, st, h => by
    cases a with
    | true => simp [Client.connectWSGo]
    | false =>
      have hr : rest.contains true = true := by simpa using h
      simp [Client.connectWSGo, connectWSGo_retry_connected rest _ hr]

lemma dispatch_ok (env : Env) (st : ClientState) :
    ∃ r, Client.dispatch env st = Except.ok r := by
  obtain ⟨stp, hw, cn, wsr, bk, q, oracle⟩ := st
  cases q with
  | nil => exact ⟨_, rfl⟩
  | cons e rest => cases e <;> exact ⟨_, rfl⟩

/-- C8: for every book state and every order id not present in the book,
applying `done`, `match`, or `change` for that id returns "no change" (the
`false` flag) and leaves the book — every price level and the sequence —
exactly as it was; such calls are silently tolerated. -/
theorem c8_unknown_id_tolerance (b : Book) (m : OrderMsg)
    (h : b.hasOrder m.orderId = false) :
    L3OrderBookSync.onOrderDone b m = (b, false) ∧
    L3OrderBookSync.onOrderMatch b m = (b, false) ∧
    L3OrderBookSync.onOrderChange b m = (b, false) := by
  obtain ⟨hb, ha⟩ := hasOrder_split b m.orderId h
  refine ⟨?_, ?_, ?_⟩ <;>
    simp [L3OrderBookSync.onOrderDone, L3OrderBookSync.onOrderMatch,
      L3OrderBookSync.onOrderChange,
      removeOrderFromLevels_not_found m.orderId _ hb,
      removeOrderFromLevels_not_found m.orderId _ ha,
      matchOrderInLevels_not_found m.orderId m.size _ hb,
      matchOrderInLevels_not_found m.orderId m.size _ ha,
      changeOrderInLevels_not_found m.orderId m.size _ hb,
      changeOrderInLevels_not_found m.orderId m.size _ ha]

/-- Witness for C8 at a concrete book and a concrete unknown order id. -/
theorem c8_unknown_id_tolerance_witness :
    sampleBook.hasOrder sampleUnknownMsg.orderId = false ∧
    L3OrderBookSync.onOrderDone sampleBook sampleUnknownMsg = (sampleBook, false) ∧
    L3OrderBookSync.onOrderMatch sampleBook sampleUnknownMsg = (sampleBook, false) ∧
    L3OrderBookSync.onOrderChange sampleBook sampleUnknownMsg = (sampleBook, false) :=
  ⟨by decide, c8_unknown_id_tolerance sampleBook sampleUnknownMsg (by decide)⟩

lemma getBids_map_price (b : Book) (n : Nat) :
    (L3OrderBook.getBids b n).map OrderBookLevel.getPrice =
      (b.bids.map PriceLevel.price).take n := by
  simp [L3OrderBook.getBids, pricelevels_to_obooklevels, PriceLevels.getValues,
    OrderBookLevel.getPrice, List.map_take, List.map_map, Function.comp_def]

lemma getAsks_map_price (b : Book) (n : Nat) :
    (L3OrderBook.getAsks b n).map OrderBookLevel.getPrice =
      (b.asks.map PriceLevel.price).take n := by
  simp [L3OrderBook.getAsks, pricelevels_to_obooklevels, PriceLevels.getValues,
    OrderBookLevel.getPrice, List.map_take, List.map_map, Function.comp_def]

/-- C9: `getBids(maxLevels)` and `getAsks(maxLevels)` are pure functions of
the book (they produce no new book state), return at most `maxLevels` levels
per side with the default bound being 20, keep the best-first order of the
stored sides, and collapse each level to a `(price, aggregateSize)` pair. -/
theorem c9_accessors_bounded_best_first (b : Book) (n : Nat) :
    (L3OrderBook.getBids b n).length ≤ n ∧
    (L3OrderBook.getAsks b n).length ≤ n ∧
    L3OrderBook.getBidsDefault b = L3OrderBook.getBids b 20 ∧
    L3OrderBook.getAsksDefault b = L3OrderBook.getAsks b 20 ∧
    L3OrderBook.getBids b n =
      (b.bids.take n).map (fun l => OrderBookLevel.mk l.price l.size) ∧
    L3OrderBook.getAsks b n =
      (b.asks.take n).map (fun l => OrderBookLevel.mk l.price l.size) ∧
    (List.Pairwise (· > ·) (b.bids.map PriceLevel.price) →
      List.Pairwise (· > ·) ((L3OrderBook.getBids b n).map OrderBookLevel.getPrice)) ∧
    (List.Pairwise (· < ·) (b.asks.map PriceLevel.price) →
      List.Pairwise (· < ·) ((L3OrderBook.getAsks b n).map OrderBookLevel.getPrice)) := by
  refine ⟨?_, ?_, rfl, rfl, rfl, rfl, ?_, ?_⟩
  · simp [L3OrderBook.getBids, pricelevels_to_obooklevels, PriceLevels.getValues]
  · simp [L3OrderBook.getAsks, pricelevels_to_obooklevels, PriceLevels.getValues]
  · intro h
    rw [getBids_map_price]
    exact h.sublist (List.take_sublist _ _)
  · intro h
    rw [getAsks_map_price]
    exact h.sublist (List.take_sublist _ _)

/-- Witness for C9 at a concrete book with two levels per side and a bound
of 1. -/
theorem c9_accessors_witness :
    List.Pairwise (· > ·) (sampleBook.bids.map PriceLevel.price) ∧
    List.Pairwise (· > ·)
      ((L3OrderBook.getBids sampleBook 1).map OrderBookLevel.getPrice) ∧
    (L3OrderBook.getBids sampleBook 1).length ≤ 1 := by
  have hp : List.Pairwise (· > ·) (sampleBook.bids.map PriceLevel.price) := by decide
  exact ⟨hp, (c9_accessors_bounded_best_first sampleBook 1).2.2.2.2.2.2.1 hp,
    (c9_accessors_bounded_best_first sampleBook 1).1⟩

lemma onDisconnected_queue (st : ClientState) :
    (Client.onDisconnected st).1.queue = st.queue := by
  by_cases h : st.stopped = true
  · simp [Client.onDisconnected, h]
  · simp only [Bool.not_eq_true] at h
    simp [Client.onDisconnected, h, Client.connectWS, connectWSGo_queue]

/-- C1: for every decoded order event routed by the dispatch loop, the client
first emits exactly one order-lifecycle notification unconditionally, then
applies the event to the merge engine, and emits a book-updated notification
if and only if the merge engine reports that the book changed. -/
theorem c1_order_event_emissions (env : Env) (st : ClientState) (m : OrderMsg)
    (rest : List QEvent) :
    (Client.dispatch env { st with queue := QEvent.orderReceived m :: rest } =
      Except.ok ({ st with queue := rest,
                           book := (L3OrderBookSync.onOrderReceived st.book m).1 }, true,
        ClientAction.emitOrderEvent m ::
          if (L3OrderBookSync.onOrderReceived st.book m).2 then
            [ClientAction.emitL3OrderBookEvent] else [])) ∧
    (Client.dispatch env { st with queue := QEvent.orderOpen m :: rest } =
      Except.ok ({ st with queue := rest,
                           book := (L3OrderBookSync.onOrderOpen st.book m).1 }, true,
        ClientAction.emitOrderEvent m ::
          if (L3OrderBookSync.onOrderOpen st.book m).2 then
            [ClientAction.emitL3OrderBookEvent] else [])) ∧
    (Client.dispatch env { st with queue := QEvent.orderDone m :: rest } =
      Except.ok ({ st with queue := rest,
                           book := (L3OrderBookSync.onOrderDone st.book m).1 }, true,
        ClientAction.emitOrderEvent m ::
          if (L3OrderBookSync.onOrderDone st.book m).2 then
            [ClientAction.emitL3OrderBookEvent] else [])) ∧
    (Client.dispatch env { st with queue := QEvent.orderMatch m :: rest } =
      Except.ok ({ st with queue := rest,
                           book := (L3OrderBookSync.onOrderMatch st.book m).1 }, true,
        ClientAction.emitOrderEvent m ::
          if (L3OrderBookSync.onOrderMatch st.book m).2 then
            [ClientAction.emitL3OrderBookEvent] else [])) ∧
    (Client.dispatch env { st with queue := QEvent.orderChange m :: rest } =
      Except.ok ({ st with queue := rest,
                           book := (L3OrderBookSync.onOrderChange st.book m).1 }, true,
        ClientAction.emitOrderEvent m ::
          if (L3OrderBookSync.onOrderChange st.book m).2 then
            [ClientAction.emitL3OrderBookEvent] else [])) :=
  ⟨rfl, rfl, rfl, rfl, rfl⟩

/-- C2: dispatching the worker's connection-opened signal, and likewise a
sequence-mismatch signal, performs exactly one snapshot fetch followed by one
full book reseed (replacing the entire book and its sequence) within that
dispatch call, while every buffered diff event stays on the channel. -/
theorem c2_reconnect_reseeds (env : Env) (st : ClientState)
    (rest : List QEvent) (n : Nat) :
    Client.dispatch env { st with queue := QEvent.connected :: rest } =
      Except.ok ({ st with queue := rest, book := Book.loadSnapshot env.snapshot },
        true, [ClientAction.fetchSnapshot, ClientAction.loadBook]) ∧
    Client.dispatch env { st with queue := QEvent.seqNrMismatch n :: rest } =
      Except.ok ({ st with queue := rest, book := Book.loadSnapshot env.snapshot },
        true, [ClientAction.fetchSnapshot, ClientAction.loadBook]) :=
  ⟨rfl, rfl⟩

/-- C3: each dispatch call removes at most one event from the channel (the
resulting channel is the tail of the previous one), returns `false` leaving
the state untouched when the channel is empty (the bounded 10ms wait having
timed out), and returns `true` whenever it pops an event of any kind the
routing recognises. -/
theorem c3_dispatch_single_event (env : Env) (st : ClientState) :
    (st.queue = [] → Client.dispatch env st = Except.ok (st, false, [])) ∧
    (∀ st' r as, Client.dispatch env st = Except.ok (st', r, as) →
      st'.queue = st.queue.tail) ∧
    (∀ st' as, Client.dispatch env st = Except.ok (st', true, as) →
      st.queue ≠ []) ∧
    (∀ e rest, st.queue = e :: rest → e.kind ≠ EventKind.ERROR →
      ∃ st' as, Client.dispatch env st = Except.ok (st', true, as)) := by
  obtain ⟨stp, hw, cn, wsr, bk, q, oracle⟩ := st
  cases q with
  | nil =>
    refine ⟨fun _ => rfl, ?_, ?_, ?_⟩
    · intro st' r as h
      injection h with h1
      simp only [Prod.mk.injEq] at h1
      rw [← h1.1]
      rfl
    · intro st' as h
      injection h with h1
      simp only [Prod.mk.injEq] at h1
      exact absurd h1.2.1 (by simp)
    · intro e rest h
      exact absurd h (by simp)
  | cons e rest =>
    refine ⟨fun h => absurd h (by simp), ?_, ?_, ?_⟩
    · intro st' r as h
      cases e <;>
        (injection h with h1
         simp only [Prod.mk.injEq] at h1
         rw [← h1.1]) <;>
        simp [onDisconnected_queue, Client.onConnected, Client.onSeqNrMismatch,
          Client.refreshOrderBook]
    · intro st' as h
      simp
    · intro e' rest' h hkind
      injection h with he hrest
      subst he
      cases e with
      | error m => exact absurd hkind (by simp [QEvent.kind])
      | connected => exact ⟨_, _, rfl⟩
      | disconnected => exact ⟨_, _, rfl⟩
      | orderMatch m => exact ⟨_, _, rfl⟩
      | orderReceived m => exact ⟨_, _, rfl⟩
      | orderOpen m => exact ⟨_, _, rfl⟩
      | orderDone m => exact ⟨_, _, rfl⟩
      | orderChange m => exact ⟨_, _, rfl⟩
      | seqNrMismatch n => exact ⟨_, _, rfl⟩

/-- Witness for C3: an empty channel yields `false` with the state untouched,
and a channel holding one order-open event yields `true`. -/
theorem c3_dispatch_witness :
    Client.dispatch sampleEnv sampleState = Except.ok (sampleState, false, []) ∧
    (∃ st' as, Client.dispatch sampleEnv sampleOpenState = Except.ok (st', true, as)) :=
  ⟨(c3_dispatch_single_event sampleEnv sampleState).1 rfl,
   (c3_dispatch_single_event sampleEnv sampleOpenState).2.2.2
     (QEvent.orderOpen sampleOpenMsg) [] rfl (by decide)⟩

/-- C7: dispatch never raises to its caller — for every state it returns
normally (in particular the `assert method is not None` in the order-event
handler can never fire, since every routed order event kind has an entry in
the dispatch table), and an event kind with no registered handler is logged
as an error and dropped, with the loop continuing. -/
theorem c7_dispatch_never_raises (env : Env) (st : ClientState) :
    ((Client.ORDER_BOOK_EVENT_DISPATCH EventKind.ORDER_MATCH).isSome = true ∧
     (Client.ORDER_BOOK_EVENT_DISPATCH EventKind.ORDER_RECEIVED).isSome = true ∧
     (Client.ORDER_BOOK_EVENT_DISPATCH EventKind.ORDER_OPEN).isSome = true ∧
     (Client.ORDER_BOOK_EVENT_DISPATCH EventKind.ORDER_DONE).isSome = true ∧
     (Client.ORDER_BOOK_EVENT_DISPATCH EventKind.ORDER_CHANGE).isSome = true) ∧
    (∃ r, Client.dispatch env st = Except.ok r) ∧
    (∀ m rest, st.queue = QEvent.error m :: rest →
      Client.dispatch env st =
        Except.ok ({ st with queue := rest }, false,
          [ClientAction.logInvalidEvent])) := by
  refine ⟨⟨rfl, rfl, rfl, rfl, rfl⟩, dispatch_ok env st, ?_⟩
  intro m rest h
  obtain ⟨stp, hw, cn, wsr, bk, q, oracle⟩ := st
  simp only at h
  subst h
  rfl

/-- Witness for C7: on a concrete state whose channel holds one `ERROR`
event, dispatch returns normally with the event dropped; the dispatch table
has an entry for the order-match kind. -/
theorem c7_dispatch_witness :
    (Client.ORDER_BOOK_EVENT_DISPATCH EventKind.ORDER_MATCH).isSome = true ∧
    Client.dispatch sampleEnv sampleErrorState =
      Except.ok ({ sampleErrorState with queue := [] }, false,
        [ClientAction.logInvalidEvent]) :=
  ⟨(c7_dispatch_never_raises sampleEnv sampleErrorState).1.1,
   (c7_dispatch_never_raises sampleEnv sampleErrorState).2.2
     sampleUnknownMsg [] rfl⟩

/-- C10: `ERROR` events pushed by the worker have no dedicated branch in the
dispatch routing and no entry in the order-event dispatch table: dispatching
a state whose non-empty channel holds an `ERROR` event pops it, logs it, and
returns `false` — so a `false` return does not imply the channel was empty. -/
theorem c10_error_event_unrouted :
    Client.ORDER_BOOK_EVENT_DISPATCH EventKind.ERROR = none ∧
    sampleErrorState.queue ≠ [] ∧
    Client.dispatch sampleEnv sampleErrorState =
      Except.ok ({ sampleErrorState with queue := [] }, false,
        [ClientAction.logInvalidEvent]) :=
  ⟨rfl, by decide, rfl⟩

/-- C4: the initial `start()` makes a single connection attempt (exactly one
worker spawned, no internal retry), and raises the connection-establishment
error to the caller if and only if that attempt never connects; dispatching
in steady state always returns normally rather than raising. -/
theorem c4_start_single_attempt (st : ClientState) (a : Bool) (rest : List Bool)
    (h : st.attemptOracle = a :: rest) :
    (Client.connectWS false st).2 = [ClientAction.spawnWorker] ∧
    (a = true → Client.start st =
      Except.ok ({ st with hasWorker := true, connected := true,
                           attemptOracle := rest },
        [ClientAction.spawnWorker])) ∧
    (a = false → Client.start st =
      Except.error "Failed to connect websocket client") ∧
    (∀ env st2, ∃ r, Client.dispatch env st2 = Except.ok r) := by
  refine ⟨?_, ?_, ?_, dispatch_ok⟩
  · simp [Client.connectWS, h, Client.connectWSGo]
  · intro ha
    subst ha
    simp [Client.start, Client.connectWS, h, Client.connectWSGo]
  · intro ha
    subst ha
    simp [Client.start, Client.connectWS, h, Client.connectWSGo]

/-- Witness for C4: from a fresh client whose single attempt succeeds,
`start()` returns normally; when the single attempt fails, it raises the
connection-establishment error. -/
theorem c4_start_witness :
    Client.start (Client.initialState [true]) =
      Except.ok ({ Client.initialState [true] with
                   hasWorker := true, connected := true, attemptOracle := [] },
        [ClientAction.spawnWorker]) ∧
    Client.start (Client.initialState [false]) =
      Except.error "Failed to connect websocket client" :=
  ⟨(c4_start_single_attempt (Client.initialState [true]) true [] rfl).2.1 rfl,
   (c4_start_single_attempt (Client.initialState [false]) false [] rfl).2.2.1 rfl⟩

/-- C5: on a disconnection event the controller first waits for the worker
thread to terminate (the join is the first recorded action), then restarts
the connect sequence in retry mode if and only if stop has not been
requested; in retry mode it keeps attempting until an attempt connects. -/
theorem c5_disconnect_reconnect (st : ClientState) :
    (st.stopped = true → Client.onDisconnected st = (st, [ClientAction.joinWorker])) ∧
    (st.stopped = false →
      Client.onDisconnected st =
        ((Client.connectWS true st).1,
          ClientAction.joinWorker :: (Client.connectWS true st).2)) ∧
    (st.stopped = false → st.attemptOracle.contains true = true →
      (Client.onDisconnected st).1.connected = true) := by
  refine ⟨?_, ?_, ?_⟩
  · intro h
    simp [Client.onDisconnected, h]
  · intro h
    simp [Client.onDisconnected, h]
  · intro h hc
    simp [Client.onDisconnected, h, Client.connectWS,
      connectWSGo_retry_connected _ _ hc]

/-- Witness for C5: a stopped client only joins the worker on disconnect,
while a non-stopped client whose second attempt succeeds ends reconnected. -/
theorem c5_disconnect_witness :
    Client.onDisconnected sampleStoppedState =
      (sampleStoppedState, [ClientAction.joinWorker]) ∧
    (Client.onDisconnected sampleRetryState).1.connected = true :=
  ⟨(c5_disconnect_reconnect sampleStoppedState).1 rfl,
   (c5_disconnect_reconnect sampleRetryState).2.2 rfl (by decide)⟩

/-- C6 counterexample: before `start()` has ever been called there is no
worker thread, and `stop()` is then a no-op — the client does not reach the
stopped state (`eof` stays false), so the stopped state is not reachable from
every state via explicit stop. -/
theorem c6_stop_before_start_noop :
    Client.stop (Client.initialState []) = Client.initialState [] ∧
    Client.eof (Client.stop (Client.initialState [])) = false := by
  constructor <;> rfl

/-- C6 (amended): `stop()` is idempotent; whenever a worker thread exists
(i.e. once `start()` has been called) it sets the stopped flag and instructs
the worker to terminate, so the stopped state is reachable from every such
state; while no worker exists yet, `stop()` leaves the client unchanged. -/
theorem c6_stop_idempotent (st : ClientState) :
    Client.stop (Client.stop st) = Client.stop st ∧
    (st.hasWorker = true →
      Client.eof (Client.stop st) = true ∧
      (Client.stop st).workerStopRequested = true) ∧
    (st.hasWorker = false → Client.stop st = st) := by
  by_cases h : st.hasWorker = true
  · simp [Client.stop, Client.eof, h]
  · simp only [Bool.not_eq_true] at h
    simp [Client.stop, Client.eof, h]

/-- Witness for C6 at a concrete connected state with a worker thread. -/
theorem c6_stop_witness :
    Client.eof (Client.stop sampleState) = true ∧
    Client.stop (Client.stop sampleState) = Client.stop sampleState :=
  ⟨((c6_stop_idempotent sampleState).2.1 rfl).1,
   (c6_stop_idempotent sampleState).1⟩
